import Mathlib

set_option maxHeartbeats 1000000

/-!
Shallow embedding of the nfc-py console utility (src/multitool.py and
src/read.py).  The tool shells out to external NFC binaries and interprets
their captured text output by substring search; we model the captured
outcome of each child process explicitly and translate the pure
interpretation logic function by function.  Python string primitives
(`in`, `strip`, `lower`, `int(s, 16)`) are modeled on the ASCII fragment
actually exercised by the tool.
-/

namespace NfcPy

/-- Test that the character list given first is an initial segment of the
second, comparing element by element. -/
def listPrefixOf : List Char → List Char → Bool
  | [], _ => true
  | _ :: _, [] => false
  | p :: ps, c :: cs => p == c && listPrefixOf ps cs

/-- Occurrence test for the pattern `pat` somewhere inside the second list,
modeling the Python membership operator on strings (`pat in s`). -/
def listContains (pat : List Char) : List Char → Bool
  | [] => pat.isEmpty
  | c :: cs => listPrefixOf pat (c :: cs) || listContains pat cs

/-- Python `pat in hay` on strings: substring containment. -/
def strContains (hay pat : String) : Bool :=
  listContains pat.data hay.data

/-- Python `str.lower()` restricted to ASCII, which is all the tool ever
compares after lowering. -/
def pyLower (s : String) : String :=
  ⟨s.data.map Char.toLower⟩

/-- The ASCII whitespace characters stripped by Python `str.strip()`. -/
def isPyWs (c : Char) : Bool :=
  c == ' ' || c == '\t' || c == '\n' || c == '\r' || c == '\x0b' || c == '\x0c'

/-- Strip leading and trailing whitespace from a character list. -/
def pyStripList (cs : List Char) : List Char :=
  ((cs.dropWhile isPyWs).reverse.dropWhile isPyWs).reverse

/-- Python `str.strip()` (ASCII whitespace fragment). -/
def pyStrip (s : String) : String :=
  ⟨pyStripList s.data⟩

/-- Hexadecimal digit as accepted by Python `int(_, 16)`: 0-9, a-f, A-F. -/
def pyIsHexDigit (c : Char) : Bool :=
  (('0' ≤ c) && (c ≤ '9')) || (('a' ≤ c) && (c ≤ 'f')) || (('A' ≤ c) && (c ≤ 'F'))

/-- Tail of the digit group grammar of CPython integer literals with base 16:
after a first digit, digits follow optionally separated by single
underscores (an underscore must be followed by a digit). -/
def hexTail : List Char → Bool
  | [] => true
  | c :: cs =>
    if c == '_' then
      match cs with
      | [] => false
      | d :: ds => pyIsHexDigit d && hexTail ds
    else
      pyIsHexDigit c && hexTail cs

/-- A nonempty underscore-separated hexadecimal digit group. -/
def hexDigits : List Char → Bool
  | [] => false
  | c :: cs => pyIsHexDigit c && hexTail cs

/-- Body of a base-16 CPython integer string after the optional sign: an
optional leading `0x`/`0X` marker (optionally followed by one underscore),
then a digit group. -/
def hexBody (cs : List Char) : Bool :=
  match cs with
  | c0 :: c1 :: rest =>
    if c0 == '0' && (c1 == 'x' || c1 == 'X') then
      match rest with
      | [] => false
      | r0 :: rest2 => if r0 == '_' then hexDigits rest2 else hexDigits rest
    else hexDigits cs
  | _ => hexDigits cs

/-- A base-16 CPython integer string after whitespace stripping: optional
sign, then the body. -/
def hexSigned (cs : List Char) : Bool :=
  match cs with
  | c :: rest => if c == '+' || c == '-' then hexBody rest else hexBody cs
  | [] => false

/-- Success of Python `int(s, 16)` (ASCII fragment): surrounding whitespace
is ignored, then an optional sign, an optional `0x` marker and a nonempty
underscore-separated hexadecimal digit group must follow. -/
def pyIntHexOk (s : String) : Bool :=
  hexSigned (pyStripList s.data)

/-- Outcome of one `subprocess.run` call as observed by the Python code:
either the child completed with an exit code and captured stdout/stderr, or
the call raised FileNotFoundError, TimeoutExpired, or some other exception. -/
inductive RunOutcome where
  | completed (returncode : Int) (stdout stderr : String)
  | toolNotFound
  | timeout
  | otherError (msg : String)
deriving DecidableEq

/-- The marker-matching chain inlined in `identify_card_type`
(src/multitool.py lines 56-74): ordered substring tests over the combined
captured text, first match wins, unmatched text maps to "unknown". -/
def classify_output (output : String) : String :=
  if strContains output "MIFARE Classic" then "mifare_classic"
  else if strContains output "Mifare Ultralight" then "mifare_ultralight"
  else if strContains output "NTAG" then "ntag"
  else if strContains output "ISO/IEC 14443A" then "iso14443a"
  else "unknown"

/-- `identify_card_type` (src/multitool.py lines 42-84): on a completed run
it classifies stdout concatenated with stderr and returns that label; on
FileNotFoundError, TimeoutExpired or any other exception it returns Python
`None`, modeled as `Option.none`. -/
def identify_card_type : RunOutcome → Option String
  | .completed _ stdout stderr => some (classify_output (stdout ++ stderr))
  | .toolNotFound => none
  | .timeout => none
  | .otherError _ => none

/-- `read_nfc_tag` (src/multitool.py lines 6-39, identical in src/read.py):
success iff the marker "ISO/IEC 14443A" occurs in the captured stdout
(stderr is not consulted); every exception path returns False. -/
def read_nfc_tag : RunOutcome → Bool
  | .completed _ stdout _ => strContains stdout "ISO/IEC 14443A"
  | .toolNotFound => false
  | .timeout => false
  | .otherError _ => false

/-- Result of `diagnose_card` (src/multitool.py lines 87-151).  Exit code 0
runs `diagnose_write_capability` and returns True; matched auth errors
return False; other completed runs return None with the raw output printed;
each exception path is kept distinct. -/
inductive DiagnoseOutcome where
  | proceedToWriteProbe
  | authenticationFailed
  | indeterminate (raw : String)
  | toolMissing
  | timedOut
  | fault (msg : String)
deriving DecidableEq

/-- `diagnose_card` (src/multitool.py lines 87-151), paired with the state
of the temporary dump file /tmp/nfc_test.mfd.  `fileOnDisk` says whether the
file exists at the moment control returns to the Python code (the external
dump tool may have created it before finishing, timing out, or failing).
Only the path on which `subprocess.run` returns normally reaches the
cleanup (`os.path.exists` / `os.remove`); the exception handlers perform no
cleanup, so there the file state is unchanged.  The second component is
whether the file exists after `diagnose_card` returns. -/
def diagnose_card : RunOutcome → Bool → DiagnoseOutcome × Bool
  | .completed rc stdout stderr, _ =>
    let output := stdout ++ stderr
    (if rc == 0 then .proceedToWriteProbe
     else if strContains output "Permission denied"
          || strContains output "Access violation"
          || strContains output "Authentication failed" then .authenticationFailed
     else .indeterminate output, false)
  | .toolNotFound, fileOnDisk => (.toolMissing, fileOnDisk)
  | .timeout, fileOnDisk => (.timedOut, fileOnDisk)
  | .otherError msg, fileOnDisk => (.fault msg, fileOnDisk)

/-- Failure classes of `write_nfc_tag`, one per guidance block printed on
the failure path (src/multitool.py lines 217-231). -/
inductive WriteErrorClass where
  | cardNotDetected
  | notCloneCard
  | permissionDenied
  | unclassified
deriving DecidableEq

/-- The ordered failure-text classification of `write_nfc_tag`
(src/multitool.py lines 217-231), applied to `stderr + stdout`. -/
def classify_write_error (errorText : String) : WriteErrorClass :=
  if strContains errorText "No suitable card found" then .cardNotDetected
  else if strContains errorText "Not a special card"
       || strContains (pyLower errorText) "not special" then .notCloneCard
  else if strContains errorText "Permission denied"
       || strContains (pyLower errorText) "not allowed" then .permissionDenied
  else .unclassified

/-- `write_nfc_tag` (src/multitool.py lines 194-244) on its subprocess
outcome: success (True) iff the exit code is 0 or "Setting UID" occurs in
the captured stdout; otherwise False together with the classification of
`stderr + stdout`.  Exception paths return False with no classification. -/
def write_nfc_tag : RunOutcome → Bool × Option WriteErrorClass
  | .completed rc stdout stderr =>
    if rc == 0 || strContains stdout "Setting UID" then (true, none)
    else (false, some (classify_write_error (stderr ++ stdout)))
  | .toolNotFound => (false, none)
  | .timeout => (false, none)
  | .otherError _ => (false, none)

/-- The distinct terminations of the Python script embedded in
`write_ndef_text` (src/multitool.py lines 253-281): the import-failure
branch calls `sys.exit(1)`; the no-tag, not-writable and caught-exception
branches only print a message and fall off the end of the script, which
terminates the interpreter with exit code 0, as does the success branch. -/
inductive NdefScriptRun where
  | importMissing (msg : String)
  | noTagDetected
  | tagNotWritable
  | scriptError (msg : String)
  | wroteOk (payload : String)
deriving DecidableEq

/-- Exit code of the embedded NDEF script for each termination. -/
def ndef_script_exit : NdefScriptRun → Int
  | .importMissing _ => 1
  | .noTagDetected => 0
  | .tagNotWritable => 0
  | .scriptError _ => 0
  | .wroteOk _ => 0

/-- Stdout of the embedded NDEF script for each termination. -/
def ndef_script_stdout : NdefScriptRun → String
  | .importMissing msg => "✗ Required package missing: " ++ msg
  | .noTagDetected => "✗ No tag detected"
  | .tagNotWritable => "✗ Tag not writable or no NDEF support"
  | .scriptError msg => "✗ Error: " ++ msg
  | .wroteOk payload => "✓ Successfully wrote NDEF: " ++ payload

/-- `write_ndef_text` (src/multitool.py lines 247-298): its returned
success indicator is `result.returncode == 0` and nothing else; the
exception handler returns False. -/
def write_ndef_text : RunOutcome → Bool
  | .completed rc _ _ => rc == 0
  | .toolNotFound => false
  | .timeout => false
  | .otherError _ => false

/-- One iteration's worth of console input and child-process outcomes for
the menu loop of `main` (src/multitool.py lines 334-429): the raw menu
choice, the outcomes of whichever subprocesses the chosen branch would run,
and the raw strings typed at the nested prompts of options 4 and 5. -/
structure MenuInput where
  choice : String
  identifyRun : RunOutcome
  readRun : RunOutcome
  diagnoseRun : RunOutcome
  diagnoseFileOnDisk : Bool
  serialRaw : String
  confirmRaw : String
  uidWriteRun : RunOutcome
  ndefTextRaw : String
  ndefConfirmRaw : String
  ndefRun : RunOutcome
deriving DecidableEq

/-- Observable effects of one pass through the menu loop body: whether the
loop `break`s, whether option 4's serial passed all three validation checks
(reaching the confirmation prompt), and whether the nfc-mfsetuid or NDEF
write subprocess was launched. -/
structure StepResult where
  exitsLoop : Bool
  serialAccepted : Bool
  uidWriteInvoked : Bool
  ndefWriteInvoked : Bool
deriving DecidableEq

/-- A menu pass with no loop exit and no write subprocess. -/
def stepNone : StepResult :=
  { exitsLoop := false, serialAccepted := false,
    uidWriteInvoked := false, ndefWriteInvoked := false }

/-- One pass through the body of the `while True` loop of `main`
(src/multitool.py lines 334-429).  The choice is stripped and dispatched by
string equality; options 1-3 run their operation and ignore its result;
option 4 identifies the card, and only for the labels "mifare_classic" and
"iso14443a" prompts for a serial, rejecting it (with `continue`) when it is
empty, not of length 8, or not accepted by `int(serial, 16)`, then launches
`write_nfc_tag` only on a lowercased confirmation equal to "y"; option 5
prompts for a nonempty text and a confirmation likewise; option 6 `break`s;
anything else reprints the menu. -/
def mainMenuStep (inp : MenuInput) : StepResult :=
  if pyStrip inp.choice == "1" then stepNone
  else if pyStrip inp.choice == "2" then stepNone
  else if pyStrip inp.choice == "3" then stepNone
  else if pyStrip inp.choice == "4" then
    if identify_card_type inp.identifyRun == some "mifare_classic"
       || identify_card_type inp.identifyRun == some "iso14443a" then
      if (pyStrip inp.serialRaw).length == 0 then stepNone
      else if !((pyStrip inp.serialRaw).length == 8) then stepNone
      else if !(pyIntHexOk (pyStrip inp.serialRaw)) then stepNone
      else if pyLower (pyStrip inp.confirmRaw) == "y" then
        { stepNone with serialAccepted := true, uidWriteInvoked := true }
      else { stepNone with serialAccepted := true }
    else stepNone
  else if pyStrip inp.choice == "5" then
    if (pyStrip inp.ndefTextRaw).length == 0 then stepNone
    else if pyLower (pyStrip inp.ndefConfirmRaw) == "y" then
      { stepNone with ndefWriteInvoked := true }
    else stepNone
  else if pyStrip inp.choice == "6" then
    { stepNone with exitsLoop := true }
  else stepNone

/-- The menu loop of `main` over a finite schedule of inputs: True when the
loop exited via the `break` of option 6, False when the schedule ran out
with the loop still running. -/
def runMenu : List MenuInput → Bool
  | [] => false
  | inp :: rest => if (mainMenuStep inp).exitsLoop then true else runMenu rest

/-- The three validation checks of option 4 of `main` (src/multitool.py
lines 366-378) as a single predicate on the stripped serial: nonempty,
length exactly 8, and accepted by Python `int(serial, 16)`. -/
def serialValidation (serial : String) : Bool :=
  !(serial.length == 0) && (serial.length == 8) && pyIntHexOk serial

/-- A string of exactly 8 hexadecimal characters, the shape the spec says
validation requires. -/
def isHex8 (s : String) : Bool :=
  (s.length == 8) && s.data.all pyIsHexDigit

/-- The classifier marker table as the spec presents it: markers tested top
to bottom, first match wins. -/
def markerTable : List (String × String) :=
  [("MIFARE Classic", "mifare_classic"),
   ("Mifare Ultralight", "mifare_ultralight"),
   ("NTAG", "ntag"),
   ("ISO/IEC 14443A", "iso14443a")]

/-- Modelled from the spec: the label of the first marker of `markerTable`
contained in the text, if any. -/
def firstMatchLabel (text : String) : Option String :=
  (markerTable.find? fun p => strContains text p.1).map Prod.snd

/-- A sample menu-loop iteration against a card identified as MIFARE
Classic, with the remaining prompts and outcomes fixed to concrete values;
used to evaluate `mainMenuStep` on explicit inputs. -/
def menuInputClassic (choice serialRaw confirmRaw : String) : MenuInput :=
  { choice := choice
    identifyRun := .completed 0 "MIFARE Classic 1K" ""
    readRun := .timeout
    diagnoseRun := .timeout
    diagnoseFileOnDisk := false
    serialRaw := serialRaw
    confirmRaw := confirmRaw
    uidWriteRun := .completed 1 "No suitable card found" ""
    ndefTextRaw := ""
    ndefConfirmRaw := ""
    ndefRun := .timeout }

/-! Helper lemmas. -/

theorem pyIsHexDigit_ne {c d : Char} (hc : pyIsHexDigit c = true)
    (hd : pyIsHexDigit d = false) : c ≠ d := by
  intro he
  rw [he] at hc
  exact Bool.noConfusion (hc.symm.trans hd)

theorem pyIsHexDigit_not_ws {c : Char} (hc : pyIsHexDigit c = true) :
    isPyWs c = false := by
  cases hw : isPyWs c
  · rfl
  · exfalso
    simp only [isPyWs, Bool.or_eq_true, beq_iff_eq] at hw
    rcases hw with ((((h | h) | h) | h) | h) | h <;>
      (subst h; exact absurd hc (by decide))

theorem pyStripList_of_no_ws (cs : List Char) (h : ∀ c ∈ cs, isPyWs c = false) :
    pyStripList cs = cs := by
  have h1 : cs.dropWhile isPyWs = cs := by
    cases cs with
    | nil => rfl
    | cons c cs => rw [List.dropWhile_cons, h c (by simp)]; simp
  have h2 : cs.reverse.dropWhile isPyWs = cs.reverse := by
    cases hr : cs.reverse with
    | nil => rfl
    | cons c cs2 =>
      have hcmem : c ∈ cs := by
        rw [← List.mem_reverse, hr]
        exact List.mem_cons_self _ _
      rw [List.dropWhile_cons, h c hcmem]; simp
  unfold pyStripList
  rw [h1, h2, List.reverse_reverse]

theorem hexTail_of_all (cs : List Char) (h : ∀ c ∈ cs, pyIsHexDigit c = true) :
    hexTail cs = true := by
  induction cs with
  | nil => rfl
  | cons c cs ih =>
    have hc : pyIsHexDigit c = true := h c (by simp)
    have hne : (c == '_') = false := by
      rw [beq_eq_false_iff_ne]
      exact pyIsHexDigit_ne hc (by decide)
    unfold hexTail
    rw [hne]
    simp only [Bool.false_eq_true, if_false, hc, Bool.true_and]
    exact ih fun d hd => h d (List.mem_cons_of_mem _ hd)

theorem hexDigits_of_all (c : Char) (cs : List Char)
    (h : ∀ d ∈ c :: cs, pyIsHexDigit d = true) : hexDigits (c :: cs) = true := by
  simp only [hexDigits, h c (by simp), Bool.true_and]
  exact hexTail_of_all cs fun d hd => h d (List.mem_cons_of_mem _ hd)

theorem hexBody_of_all (c : Char) (cs : List Char)
    (h : ∀ d ∈ c :: cs, pyIsHexDigit d = true) : hexBody (c :: cs) = true := by
  cases cs with
  | nil =>
    have hc := h c (by simp)
    simp [hexBody, hexDigits, hexTail, hc]
  | cons c1 rest =>
    have hc1 : pyIsHexDigit c1 = true := h c1 (by simp)
    have hx : (c1 == 'x') = false := by
      rw [beq_eq_false_iff_ne]; exact pyIsHexDigit_ne hc1 (by decide)
    have hX : (c1 == 'X') = false := by
      rw [beq_eq_false_iff_ne]; exact pyIsHexDigit_ne hc1 (by decide)
    simp only [hexBody, hx, hX, Bool.or_self, Bool.and_false, Bool.false_eq_true, if_false]
    exact hexDigits_of_all c (c1 :: rest) h

theorem hexSigned_of_all (c : Char) (cs : List Char)
    (h : ∀ d ∈ c :: cs, pyIsHexDigit d = true) : hexSigned (c :: cs) = true := by
  have hc := h c (by simp)
  have hp : (c == '+') = false := by
    rw [beq_eq_false_iff_ne]; exact pyIsHexDigit_ne hc (by decide)
  have hm : (c == '-') = false := by
    rw [beq_eq_false_iff_ne]; exact pyIsHexDigit_ne hc (by decide)
  simp only [hexSigned, hp, hm, Bool.or_self, Bool.false_eq_true, if_false]
  exact hexBody_of_all c cs h

theorem pyIntHexOk_of_all_hex (s : String) (hne : s.data ≠ [])
    (h : ∀ c ∈ s.data, pyIsHexDigit c = true) : pyIntHexOk s = true := by
  unfold pyIntHexOk
  rw [pyStripList_of_no_ws s.data fun c hc => pyIsHexDigit_not_ws (h c hc)]
  cases hd : s.data with
  | nil => exact absurd hd hne
  | cons c cs => exact hexSigned_of_all c cs (hd ▸ h)

theorem serialValidation_of_isHex8 (s : String) (h : isHex8 s = true) :
    serialValidation s = true := by
  unfold isHex8 at h
  simp only [Bool.and_eq_true, beq_iff_eq, List.all_eq_true] at h
  obtain ⟨hlen, hall⟩ := h
  have hne : s.data ≠ [] := by
    intro hd
    have hl : s.data.length = 8 := hlen
    rw [hd] at hl
    exact absurd hl (by decide)
  have hlen8 : s.length = 8 := hlen
  simp [serialValidation, hlen8, pyIntHexOk_of_all_hex s hne hall]

theorem string_data_append (s t : String) : (s ++ t).data = s.data ++ t.data := by
  cases s
  cases t
  rfl

theorem listContains_append_right (pat l2 : List Char) (h : listContains pat l2 = true)
    (l1 : List Char) : listContains pat (l1 ++ l2) = true := by
  induction l1 with
  | nil => simpa using h
  | cons c cs ih =>
    rw [List.cons_append]
    simp [listContains, ih]

theorem strContains_append_right (s t pat : String) (h : strContains t pat = true) :
    strContains (s ++ t) pat = true := by
  unfold strContains at h ⊢
  rw [string_data_append]
  exact listContains_append_right _ _ h _

/-! Theorems for the claims. -/

/-- C3 counterexample: the claim says the temporary dump file never exists
after a diagnosis run, on every exit path.  But when the dump subprocess
times out after the external tool has created the file, `diagnose_card`
raises through the `TimeoutExpired` handler without reaching the cleanup,
and the file still exists afterwards. -/
theorem C3_counterexample_timeout_leaves_file :
    (diagnose_card .timeout true).2 = true := rfl

/-- C3 amended: the temporary dump file is deleted before `diagnose_card`
returns on every path on which the dump subprocess completed (exit code 0
or not); on the timeout, tool-missing and other-exception paths no cleanup
runs and the file state is left unchanged. -/
theorem C3_cleanup_on_completed_paths :
    (∀ (rc : Int) (stdout stderr : String) (fileOnDisk : Bool),
        (diagnose_card (.completed rc stdout stderr) fileOnDisk).2 = false)
    ∧ (∀ fileOnDisk : Bool,
        (diagnose_card .timeout fileOnDisk).2 = fileOnDisk
        ∧ (diagnose_card .toolNotFound fileOnDisk).2 = fileOnDisk
        ∧ ∀ msg : String, (diagnose_card (.otherError msg) fileOnDisk).2 = fileOnDisk) := by
  refine ⟨fun rc stdout stderr fileOnDisk => ?_, fun fileOnDisk => ⟨rfl, rfl, fun msg => rfl⟩⟩
  simp only [diagnose_card]

/-- C6: classification of the dump-read step of `diagnose_card` on a
completed subprocess: exit code 0 proceeds to the write-capability probe;
a non-zero exit whose combined output contains one of the three
authentication markers is reported as definitively not writable; any other
non-zero outcome is indeterminate with the raw output surfaced. -/
theorem C6_dump_step_classification :
    ∀ (rc : Int) (stdout stderr : String) (fileOnDisk : Bool),
      (rc = 0 →
        (diagnose_card (.completed rc stdout stderr) fileOnDisk).1 = .proceedToWriteProbe)
      ∧ (rc ≠ 0 →
          (strContains (stdout ++ stderr) "Permission denied" = true
           ∨ strContains (stdout ++ stderr) "Access violation" = true
           ∨ strContains (stdout ++ stderr) "Authentication failed" = true) →
          (diagnose_card (.completed rc stdout stderr) fileOnDisk).1 = .authenticationFailed)
      ∧ (rc ≠ 0 →
          strContains (stdout ++ stderr) "Permission denied" = false →
          strContains (stdout ++ stderr) "Access violation" = false →
          strContains (stdout ++ stderr) "Authentication failed" = false →
          (diagnose_card (.completed rc stdout stderr) fileOnDisk).1
            = .indeterminate (stdout ++ stderr)) := by
  intro rc stdout stderr fileOnDisk
  refine ⟨fun h0 => ?_, fun hne hmark => ?_, fun hne h1 h2 h3 => ?_⟩
  · simp [diagnose_card, h0]
  · rcases hmark with h | h | h <;> simp [diagnose_card, hne, h]
  · simp [diagnose_card, hne, h1, h2, h3]

/-- C6 witness: the three branches at concrete completed outcomes. -/
theorem C6_dump_step_classification_witness :
    (diagnose_card (.completed 0 "ok" "") true).1 = .proceedToWriteProbe
    ∧ (diagnose_card (.completed 1 "Authentication failed" "") false).1
        = .authenticationFailed
    ∧ (diagnose_card (.completed 1 "garbage" "") false).1 = .indeterminate "garbage" :=
  ⟨(C6_dump_step_classification 0 "ok" "" true).1 rfl,
   (C6_dump_step_classification 1 "Authentication failed" "" false).2.1 (by decide)
     (Or.inr (Or.inr (by decide))),
   (C6_dump_step_classification 1 "garbage" "" false).2.2 (by decide) (by decide)
     (by decide) (by decide)⟩

/-- C7: when the identification subprocess raises FileNotFoundError or
TimeoutExpired, `identify_card_type` returns Python None, which is distinct
from every string label (in particular from "unknown"); every completed run
instead returns the classification label of the combined output. -/
theorem C7_fault_signal_distinct_from_labels :
    (∀ label : String,
        identify_card_type .toolNotFound ≠ some label
        ∧ identify_card_type .timeout ≠ some label)
    ∧ (∀ (rc : Int) (stdout stderr : String),
        identify_card_type (.completed rc stdout stderr)
          = some (classify_output (stdout ++ stderr))) := by
  refine ⟨fun label => ⟨?_, ?_⟩, fun rc stdout stderr => rfl⟩ <;>
    simp [identify_card_type]

/-- C7 witness: the fault signal differs from the label "unknown". -/
theorem C7_fault_signal_distinct_from_labels_witness :
    identify_card_type .toolNotFound ≠ some "unknown"
    ∧ identify_card_type .timeout ≠ some "unknown" :=
  C7_fault_signal_distinct_from_labels.1 "unknown"

/-- C9: `write_ndef_text` reports success exactly when the child exit code
is 0, and each failure branch of the embedded script (no tag sensed, tag
not writable, caught exception) terminates the script with exit code 0, so
the operation still reports success on those runs. -/
theorem C9_ndef_success_is_exit_code_only :
    (∀ (rc : Int) (stdout stderr : String),
        write_ndef_text (.completed rc stdout stderr) = true ↔ rc = 0)
    ∧ (∀ r : NdefScriptRun,
        (r = .noTagDetected ∨ r = .tagNotWritable ∨ ∃ m, r = .scriptError m) →
        ndef_script_exit r = 0
        ∧ write_ndef_text
            (.completed (ndef_script_exit r) (ndef_script_stdout r) "") = true) := by
  constructor
  · intro rc stdout stderr
    simp [write_ndef_text]
  · rintro r (rfl | rfl | ⟨m, rfl⟩) <;> exact ⟨rfl, rfl⟩

/-- C9 witness: the no-tag failure branch exits with code 0 and the
operation reports success. -/
theorem C9_ndef_success_is_exit_code_only_witness :
    ndef_script_exit .noTagDetected = 0
    ∧ write_ndef_text
        (.completed (ndef_script_exit .noTagDetected)
          (ndef_script_stdout .noTagDetected) "") = true :=
  C9_ndef_success_is_exit_code_only.2 .noTagDetected (Or.inl rfl)

/-- C5: `write_nfc_tag` reports success exactly when the exit code is 0 or
the captured stdout contains "Setting UID"; on a completed failure it
reports the ordered substring classification of `stderr + stdout` into the
four guidance classes. -/
theorem C5_uid_write_success_and_error_classes :
    (∀ (rc : Int) (stdout stderr : String),
        ((write_nfc_tag (.completed rc stdout stderr)).1 = true
          ↔ (rc = 0 ∨ strContains stdout "Setting UID" = true))
        ∧ ((write_nfc_tag (.completed rc stdout stderr)).1 = false →
            (write_nfc_tag (.completed rc stdout stderr)).2
              = some (classify_write_error (stderr ++ stdout))))
    ∧ (∀ errorText : String,
        (strContains errorText "No suitable card found" = true →
          classify_write_error errorText = .cardNotDetected)
        ∧ (strContains errorText "No suitable card found" = false →
            (strContains errorText "Not a special card" = true
             ∨ strContains (pyLower errorText) "not special" = true) →
            classify_write_error errorText = .notCloneCard)
        ∧ (strContains errorText "No suitable card found" = false →
            strContains errorText "Not a special card" = false →
            strContains (pyLower errorText) "not special" = false →
            (strContains errorText "Permission denied" = true
             ∨ strContains (pyLower errorText) "not allowed" = true) →
            classify_write_error errorText = .permissionDenied)
        ∧ (strContains errorText "No suitable card found" = false →
            strContains errorText "Not a special card" = false →
            strContains (pyLower errorText) "not special" = false →
            strContains errorText "Permission denied" = false →
            strContains (pyLower errorText) "not allowed" = false →
            classify_write_error errorText = .unclassified)) := by
  constructor
  · intro rc stdout stderr
    constructor
    · by_cases h0 : rc = 0
      · simp [write_nfc_tag, h0]
      · by_cases hs : strContains stdout "Setting UID" = true <;>
          simp [write_nfc_tag, h0, hs]
    · intro hfail
      by_cases h0 : rc = 0
      · simp [write_nfc_tag, h0] at hfail
      · by_cases hs : strContains stdout "Setting UID" = true
        · simp [write_nfc_tag, h0, hs] at hfail
        · simp [write_nfc_tag, h0, hs]
  · intro errorText
    refine ⟨fun h1 => ?_, fun h1 h2 => ?_, fun h1 h2 h3 h4 => ?_, fun h1 h2 h3 h4 h5 => ?_⟩
    · simp [classify_write_error, h1]
    · rcases h2 with h | h <;> simp [classify_write_error, h1, h]
    · rcases h4 with h | h <;> simp [classify_write_error, h1, h2, h3, h]
    · simp [classify_write_error, h1, h2, h3, h4, h5]

/-- C5 witness: the spec's two end-to-end scenarios, a success with exit
code 0 echoing "Setting UID", and a non-zero exit with "No suitable card
found" classified as card-not-detected. -/
theorem C5_uid_write_success_and_error_classes_witness :
    (write_nfc_tag (.completed 0 "Setting UID to 1B2A0A31" "")).1 = true
    ∧ classify_write_error "No suitable card found" = .cardNotDetected :=
  ⟨((C5_uid_write_success_and_error_classes.1 0 "Setting UID to 1B2A0A31" "").1).mpr
      (Or.inl rfl),
   (C5_uid_write_success_and_error_classes.2 "No suitable card found").1 (by decide)⟩

/-- The inlined classifier of `identify_card_type` agrees with the ordered
first-match reading of the marker table everywhere, defaulting to
"unknown". -/
theorem classify_eq_firstMatchLabel (text : String) :
    classify_output text = (firstMatchLabel text).getD "unknown" := by
  cases h1 : strContains text "MIFARE Classic" <;>
  cases h2 : strContains text "Mifare Ultralight" <;>
  cases h3 : strContains text "NTAG" <;>
  cases h4 : strContains text "ISO/IEC 14443A" <;>
    simp [classify_output, firstMatchLabel, markerTable, List.find?, h1, h2, h3, h4]

/-- C1: classification is ordered first-match substring search over the
fixed marker table, and any text containing "MIFARE Classic" classifies as
mifare_classic even when it also contains "ISO/IEC 14443A". -/
theorem C1_classifier_is_ordered_first_match :
    (∀ text label : String,
        firstMatchLabel text = some label → classify_output text = label)
    ∧ (∀ text : String,
        firstMatchLabel text = none → classify_output text = "unknown")
    ∧ (∀ text : String,
        strContains text "MIFARE Classic" = true →
        strContains text "ISO/IEC 14443A" = true →
        classify_output text = "mifare_classic") := by
  refine ⟨fun text label h => ?_, fun text h => ?_, fun text h1 _ => ?_⟩
  · rw [classify_eq_firstMatchLabel, h]; rfl
  · rw [classify_eq_firstMatchLabel, h]; rfl
  · simp [classify_output, h1]

/-- C1 witness: the spec's end-to-end identification scenario. -/
theorem C1_classifier_is_ordered_first_match_witness :
    classify_output "ISO/IEC 14443A ... MIFARE Classic 1K" = "mifare_classic" :=
  C1_classifier_is_ordered_first_match.2.2 "ISO/IEC 14443A ... MIFARE Classic 1K"
    (by decide) (by decide)

/-- C2 counterexample: the claim says empty captured text classifies as the
label none, but on a completed run with empty stdout and stderr the code
falls through every marker test and returns the label "unknown". -/
theorem C2_counterexample_empty_classifies_unknown :
    classify_output "" = "unknown"
    ∧ identify_card_type (.completed 0 "" "") = some "unknown" := by
  exact ⟨by decide, by decide⟩

/-- C2 amended: any completed run whose combined text matches no marker,
the empty text included, classifies as "unknown"; the absent signal (Python
None) arises only from the fault handlers, never from empty text, and is a
different value than the label "unknown". -/
theorem C2_unmatched_text_classifies_unknown :
    (∀ text : String,
        strContains text "MIFARE Classic" = false →
        strContains text "Mifare Ultralight" = false →
        strContains text "NTAG" = false →
        strContains text "ISO/IEC 14443A" = false →
        classify_output text = "unknown")
    ∧ (∀ rc : Int, identify_card_type (.completed rc "" "") = some "unknown")
    ∧ identify_card_type .toolNotFound = none
    ∧ identify_card_type .timeout = none := by
  refine ⟨fun text h1 h2 h3 h4 => ?_, fun rc => rfl, rfl, rfl⟩
  simp [classify_output, h1, h2, h3, h4]

/-- C2 amended witness: a concrete unmatched text classifies as unknown. -/
theorem C2_unmatched_text_classifies_unknown_witness :
    classify_output "garbled reader text" = "unknown" :=
  C2_unmatched_text_classifies_unknown.1 "garbled reader text"
    (by decide) (by decide) (by decide) (by decide)

/-- C10: `read_nfc_tag` decides success from stdout alone, so the ISO
marker arriving only on stderr yields failure, while `identify_card_type`
classifies the concatenation of stdout and stderr (and on such outcomes the
concatenation matches a marker, so it does not classify as unknown). -/
theorem C10_read_uses_stdout_only :
    ∀ (rc : Int) (stdout stderr : String),
      strContains stdout "ISO/IEC 14443A" = false →
      strContains stderr "ISO/IEC 14443A" = true →
      read_nfc_tag (.completed rc stdout stderr) = false
      ∧ identify_card_type (.completed rc stdout stderr)
          = some (classify_output (stdout ++ stderr))
      ∧ classify_output (stdout ++ stderr) ≠ "unknown" := by
  intro rc stdout stderr h1 h2
  refine ⟨?_, rfl, ?_⟩
  · simp [read_nfc_tag, h1]
  · have hiso : strContains (stdout ++ stderr) "ISO/IEC 14443A" = true :=
      strContains_append_right _ _ _ h2
    unfold classify_output
    cases hc1 : strContains (stdout ++ stderr) "MIFARE Classic" <;>
    cases hc2 : strContains (stdout ++ stderr) "Mifare Ultralight" <;>
    cases hc3 : strContains (stdout ++ stderr) "NTAG" <;>
      simp [hc1, hc2, hc3, hiso]

/-- C10 witness: the marker only on stderr fails the read but identifies. -/
theorem C10_read_uses_stdout_only_witness :
    read_nfc_tag (.completed 0 "" "ISO/IEC 14443A") = false
    ∧ identify_card_type (.completed 0 "" "ISO/IEC 14443A")
        = some (classify_output ("" ++ "ISO/IEC 14443A"))
    ∧ classify_output ("" ++ "ISO/IEC 14443A") ≠ "unknown" :=
  C10_read_uses_stdout_only 0 "" "ISO/IEC 14443A" (by decide) (by decide)

theorem mainMenuStep_exits (inp : MenuInput) :
    (mainMenuStep inp).exitsLoop = (pyStrip inp.choice == "6") := by
  unfold mainMenuStep
  repeat' split
  all_goals simp_all [stepNone]

theorem mainMenuStep_accept_implies_valid (inp : MenuInput)
    (h : (mainMenuStep inp).serialAccepted = true) :
    serialValidation (pyStrip inp.serialRaw) = true := by
  unfold mainMenuStep at h
  unfold serialValidation
  revert h
  repeat' split
  all_goals intro h
  all_goals simp_all [stepNone]

theorem mainMenuStep_invalid_serial_no_write (inp : MenuInput)
    (h : serialValidation (pyStrip inp.serialRaw) = false) :
    (mainMenuStep inp).serialAccepted = false
    ∧ (mainMenuStep inp).uidWriteInvoked = false := by
  unfold serialValidation at h
  unfold mainMenuStep
  repeat' split
  all_goals simp_all [stepNone]

/-- C4 counterexample: the claim says validation accepts exactly the
strings of 8 hexadecimal characters, but Python `int(serial, 16)` also
accepts signed forms, so the 8-character non-hex string "+1B2A0A3" passes
all three checks and the UID-write subprocess is launched with it. -/
theorem C4_counterexample_signed_serial_accepted :
    serialValidation "+1B2A0A3" = true
    ∧ isHex8 "+1B2A0A3" = false
    ∧ (mainMenuStep (menuInputClassic "4" "+1B2A0A3" "y")).uidWriteInvoked = true := by
  refine ⟨by decide, by decide, by decide⟩

/-- C4 amended: validation accepts a serial iff it is nonempty, exactly 8
characters long and accepted by Python `int(serial, 16)` - a superset of
the 8-hex-character strings that also admits sign, `0x` and underscore
forms; every 8-hex-character serial passes, the spec's examples behave as
stated, and a serial failing validation is rejected before the nfc-mfsetuid
subprocess is invoked. -/
theorem C4_serial_validation_and_gating :
    (∀ s : String, isHex8 s = true → serialValidation s = true)
    ∧ serialValidation "1B2A0A31" = true
    ∧ serialValidation "1B2A0A3" = false
    ∧ serialValidation "1B2A0A3G" = false
    ∧ (∀ inp : MenuInput,
        serialValidation (pyStrip inp.serialRaw) = false →
        (mainMenuStep inp).serialAccepted = false
        ∧ (mainMenuStep inp).uidWriteInvoked = false)
    ∧ (∀ inp : MenuInput,
        (mainMenuStep inp).serialAccepted = true →
        serialValidation (pyStrip inp.serialRaw) = true) :=
  ⟨serialValidation_of_isHex8, by decide, by decide, by decide,
   mainMenuStep_invalid_serial_no_write, mainMenuStep_accept_implies_valid⟩

/-- C4 amended witness: a valid 8-hex serial is accepted; the 7-character
serial is rejected and no write subprocess is invoked. -/
theorem C4_serial_validation_and_gating_witness :
    serialValidation "1B2A0A31" = true
    ∧ (mainMenuStep (menuInputClassic "4" "1B2A0A3" "y")).uidWriteInvoked = false :=
  ⟨C4_serial_validation_and_gating.1 "1B2A0A31" (by decide),
   (C4_serial_validation_and_gating.2.2.2.2.1 (menuInputClassic "4" "1B2A0A3" "y")
      (by decide)).2⟩

/-- C8: one pass of the menu body exits the loop exactly when the stripped
choice is "6", independently of every operation outcome carried by the
input; hence over any finite schedule the loop terminates exactly when some
iteration's choice is "6", and operation failures alone never end it. -/
theorem C8_menu_exits_only_on_exit_choice :
    (∀ inp : MenuInput, (mainMenuStep inp).exitsLoop = (pyStrip inp.choice == "6"))
    ∧ (∀ inps : List MenuInput,
        runMenu inps = inps.any fun inp => pyStrip inp.choice == "6")
    ∧ (∀ inps : List MenuInput,
        runMenu inps = true ↔ ∃ inp ∈ inps, pyStrip inp.choice = "6") := by
  have hany : ∀ inps : List MenuInput,
      runMenu inps = inps.any fun inp => pyStrip inp.choice == "6" := by
    intro inps
    induction inps with
    | nil => rfl
    | cons inp rest ih =>
      rw [runMenu, mainMenuStep_exits, ih, List.any_cons]
      cases pyStrip inp.choice == "6" <;> simp
  refine ⟨mainMenuStep_exits, hany, fun inps => ?_⟩
  rw [hany, List.any_eq_true]
  simp [beq_iff_eq]

/-- C8 witness: a schedule whose first iteration is a failing UID write
does not end the loop; the later explicit exit choice does. -/
theorem C8_menu_exits_only_on_exit_choice_witness :
    runMenu [menuInputClassic "4" "1B2A0A31" "y", menuInputClassic "6" "" ""] = true :=
  (C8_menu_exits_only_on_exit_choice.2.2 _).mpr
    ⟨menuInputClassic "6" "" "", by simp, by decide⟩


end NfcPy
